import Mathlib

/-!
Verification development for `run-save-bb8.py`, a pipeline that runs the
external `save-bb8` solver and renders its two output artifacts (a
configuration-space grid file and a solution-path file) as one image.

The script is embedded shallowly:
  * `loadtxt` models `numpy.loadtxt(file, delimiter=' ', skiprows=k)` on the
    list of lines of the file: the first `skiprows` raw lines are dropped,
    comments (after `#`) are stripped, blank lines are skipped, the column
    count is inferred from the first data line, every further data line must
    have that same count, every field must parse as a number, and the
    resulting 2-D table is squeezed exactly as numpy squeezes it
    (one row, one column, or a single cell collapse to lower dimension,
    no data at all gives the empty 1-D array).
  * `FS` models the two fixed artifact paths: `none` is a missing file,
    `some lines` a present file with those lines (`some []` is an empty file).
  * `SolverRun` models the outcome of `subprocess.check_output`: either the
    child ran to completion with an exit code and captured combined output,
    or the process could not be launched at all (an `OSError`, which the
    script's `except sp.CalledProcessError` clause does not catch).
  * `main` mirrors the control flow of `main()` in the script: read four
    positional arguments, build the command line, run the solver, print a
    warning (never abort) on a non-zero exit, check that both artifact files
    exist, load both with `loadtxt`, draw the heatmap (`pcolormesh`, which
    requires a 2-D array), and overlay the path when `solution_path.size != 0`
    by indexing columns 0 and 1 (an `IndexError` when the loaded path array
    is not 2-D), finally saving `solution.png`.
-/

namespace SaveBB8

/-- Split a list of characters at every occurrence of `sep`, keeping empty
chunks, like Python's `str.split(sep)` with an explicit separator. -/
def splitChars (sep : Char) : List Char → List (List Char)
  | [] => [[]]
  | c :: cs =>
    let r := splitChars sep cs
    if c = sep then [] :: r
    else
      match r with
      | f :: rest => (c :: f) :: rest
      | [] => [[c]]

/-- Fields of a line under numpy's `delimiter=' '`: split at every single
space, empty fields included. -/
def splitFields (l : String) : List (List Char) :=
  splitChars ' ' l.toList

/-- Everything of the line before the first `#`, numpy's default comment
handling. -/
def stripComment (l : String) : String :=
  String.mk ((splitChars '#' l.toList).headD [])

/-- Value of a digit string. -/
def digitsVal (cs : List Char) : Nat :=
  cs.foldl (fun a c => 10 * a + (c.toNat - 48)) 0

/-- All characters are decimal digits. -/
def allDigits (cs : List Char) : Bool :=
  cs.all (fun c => c.isDigit)

/-- Unsigned decimal number, with an optional fractional part, as Python's
`float` accepts `"12"`, `"12.5"`, `"12."` and `".5"`. -/
def parseUnsigned (cs : List Char) : Option Rat :=
  match splitChars '.' cs with
  | [ip] =>
    if !ip.isEmpty && allDigits ip then some (digitsVal ip) else none
  | [ip, fp] =>
    if (!ip.isEmpty || !fp.isEmpty) && allDigits ip && allDigits fp then
      some ((digitsVal ip : Rat) + (digitsVal fp : Rat) / ((10 : Rat) ^ fp.length))
    else none
  | _ => none

/-- A numeric field, with an optional sign, as `float(field)` parses it. -/
def parseNum (cs : List Char) : Option Rat :=
  match cs with
  | '-' :: rest => (parseUnsigned rest).map (fun q => -q)
  | '+' :: rest => parseUnsigned rest
  | _ => parseUnsigned cs

/-- The two failure modes of `numpy.loadtxt` on a present file: a data line
whose field count differs from the first data line's, and a field that does
not convert to a number. -/
inductive LoadErr
  | wrongColumns
  | badToken
deriving DecidableEq, Repr

/-- Parse every field of a row, failing when any field fails. -/
def parseFields : List (List Char) → Option (List Rat)
  | [] => some []
  | f :: fs =>
    match parseNum f, parseFields fs with
    | some v, some vs => some (v :: vs)
    | _, _ => none

/-- Parse one data line against the inferred column count `n`. -/
def parseLine (n : Nat) (l : String) : Except LoadErr (List Rat) :=
  let fields := splitFields l
  if fields.length ≠ n then .error .wrongColumns
  else
    match parseFields fields with
    | some vs => .ok vs
    | none => .error .badToken

/-- Parse every data line against the inferred column count `n`. -/
def parseRows (n : Nat) : List String → Except LoadErr (List (List Rat))
  | [] => .ok []
  | l :: ls =>
    match parseLine n l with
    | .error e => .error e
    | .ok r =>
      match parseRows n ls with
      | .error e => .error e
      | .ok rs => .ok (r :: rs)

/-- A numpy array as `loadtxt` returns it: 0-D, 1-D or 2-D. -/
inductive NpArray
  | scalar (x : Rat)
  | vector (xs : List Rat)
  | matrix (rows : List (List Rat))
deriving DecidableEq, Repr

/-- Number of elements, numpy's `.size`. -/
def NpArray.size : NpArray → Nat
  | .scalar _ => 1
  | .vector xs => xs.length
  | .matrix rs => (rs.map List.length).sum

/-- Column count of a parsed table (all rows share the first row's length). -/
def colCount (rs : List (List Rat)) : Nat :=
  (rs.headD []).length

/-- Numpy's default `ndmin=0` squeeze of a parsed table: a single cell is a
0-D array, a single row or a single column is a 1-D array, anything else
stays 2-D. -/
def squeeze (rs : List (List Rat)) : NpArray :=
  if rs.length = 0 then .vector []
  else if rs.length = 1 ∧ colCount rs = 1 then .scalar ((rs.headD []).headD 0)
  else if rs.length = 1 then .vector (rs.headD [])
  else if colCount rs = 1 then .vector (rs.map (fun r => r.headD 0))
  else .matrix rs

/-- Parse the data lines that remain after skipping, comment stripping and
blank filtering: the first data line fixes the column count, and the parsed
table is squeezed; no data at all gives numpy's empty 1-D array. -/
def loadtxtData : List String → Except LoadErr NpArray
  | [] => .ok (.vector [])
  | l₀ :: rest =>
    match parseRows (splitFields l₀).length (l₀ :: rest) with
    | .error e => .error e
    | .ok rss => .ok (squeeze rss)

/-- `numpy.loadtxt(lines, delimiter=' ', skiprows=skiprows)`. -/
def loadtxt (skiprows : Nat) (lines : List String) : Except LoadErr NpArray :=
  loadtxtData (((lines.drop skiprows).map stripComment).filter (fun l => l ≠ ""))

instance {ε α : Type} [DecidableEq ε] [DecidableEq α] : DecidableEq (Except ε α) := fun x y =>
  match x, y with
  | .ok a, .ok b => if h : a = b then .isTrue (by simp [h]) else .isFalse (by simp [h])
  | .error a, .error b => if h : a = b then .isTrue (by simp [h]) else .isFalse (by simp [h])
  | .ok _, .error _ => .isFalse (by simp)
  | .error _, .ok _ => .isFalse (by simp)

/-- Whether an `Except` computation succeeded. -/
def exOk : Except LoadErr (List (List Rat)) → Bool
  | .ok _ => true
  | .error _ => false

/-- Whether a `loadtxt` call succeeded. -/
def ltOk : Except LoadErr NpArray → Bool
  | .ok _ => true
  | .error _ => false

/-- A line that survives `loadtxt`'s comment stripping and blank-line
filtering unchanged, has exactly `cols` space-separated fields, and every
field numeric. -/
def LineWF (cols : Nat) (l : String) : Prop :=
  stripComment l = l ∧ l ≠ "" ∧ (splitFields l).length = cols ∧
    ∀ f ∈ splitFields l, (parseNum f).isSome

instance (cols : Nat) (l : String) : Decidable (LineWF cols l) := by
  unfold LineWF; infer_instance

/-- The fixed artifact locations: the solver must write `config-space.txt`
and `solution-path.txt` into the `output` directory. A file is `none` when
absent and `some lines` when present with those lines. -/
structure FS where
  configSpace : Option (List String)
  solutionPath : Option (List String)
deriving DecidableEq, Repr

/-- Resolved path of the grid artifact, `CONFIG_SPACE_FILE` in the script. -/
def CONFIG_SPACE_FILE : String := "output/config-space.txt"

/-- Resolved path of the path artifact, `SOLUTION_PATH_FILE` in the script. -/
def SOLUTION_PATH_FILE : String := "output/solution-path.txt"

/-- Resolved path of the solver executable, `SAVE_BB8` in the script
(non-Windows build location). -/
def SAVE_BB8 : String := "build/bin/save-bb8"

/-- Outcome of `subprocess.check_output(cmd, stderr=sp.STDOUT, ...)`:
either the child process ran and exited with `exitCode`, its combined
stdout/stderr captured in `output`, or the process could not be launched
at all (`OSError`, e.g. the executable is missing). -/
inductive SolverRun
  | completed (exitCode : Int) (output : String)
  | launchFailure
deriving DecidableEq, Repr

/-- The data the `WARNING` print of the script reports on a non-zero solver
exit: `e.cmd`, `e.returncode` and `e.output` of the `CalledProcessError`. -/
structure Warning where
  cmd : List String
  returncode : Int
  output : String
deriving DecidableEq, Repr

/-- A completed pipeline run: the warning (if the solver exited non-zero),
both loaded arrays, the vertex count of the plotted path overlay (`none`
when `solution_path.size == 0`), and the saved image file name. -/
structure RenderResult where
  warning : Option Warning
  grid : NpArray
  path : NpArray
  overlayVertices : Option Nat
  savedImage : String
deriving DecidableEq, Repr

/-- The ways the script dies with an uncaught exception. -/
inductive PipeError
  /-- `IndexError` on `sys.argv` when fewer than four arguments are given. -/
  | usage
  /-- Uncaught `OSError` from `sp.check_output` when the solver executable
  cannot be launched; only `CalledProcessError` is caught. -/
  | launchFailure (cmd : List String)
  /-- The `raise Exception(...)` at the two artifact-presence checks,
  carrying the missing file's path. -/
  | missingArtifact (path : String)
  /-- `ValueError` from `np.loadtxt` on the grid file. -/
  | malformedGrid (e : LoadErr)
  /-- `ValueError` from `np.loadtxt` on the path file. -/
  | malformedPath (e : LoadErr)
  /-- `ax.pcolormesh(config_space, ...)` rejects an array that is not 2-D. -/
  | gridDimensions
  /-- `IndexError` at `solution_path[:, 0]` when the loaded path array has
  non-zero size but is not 2-D. -/
  | pathIndex
deriving DecidableEq, Repr

/-- Overall outcome of one run of the script. -/
inductive Outcome
  | ok (r : RenderResult)
  | err (e : PipeError)
deriving DecidableEq, Repr

/-- Lines 66–78 of the script: `pcolormesh` of the grid (2-D required),
then, when `solution_path.size != 0`, plot of columns 0 and 1 of the path
(2-D required, else `IndexError`), then `fig.savefig('solution.png')`. -/
def renderOutcome (w : Option Warning) (grid path : NpArray) : Outcome :=
  match grid with
  | .matrix g =>
    if path.size ≠ 0 then
      match path with
      | .matrix rs => .ok ⟨w, .matrix g, .matrix rs, some rs.length, "solution.png"⟩
      | _ => .err .pathIndex
    else .ok ⟨w, .matrix g, path, none, "solution.png"⟩
  | _ => .err .gridDimensions

/-- Lines 56–78 of the script, everything after `sp.check_output` returned
or its `CalledProcessError` was turned into the warning `w`: the two
presence checks, the two `np.loadtxt` calls, and the rendering. -/
def afterLaunch (w : Option Warning) (fs : FS) : Outcome :=
  match fs.configSpace with
  | none => .err (.missingArtifact CONFIG_SPACE_FILE)
  | some gridLines =>
    match fs.solutionPath with
    | none => .err (.missingArtifact SOLUTION_PATH_FILE)
    | some pathLines =>
      match loadtxt 3 gridLines with
      | .error e => .err (.malformedGrid e)
      | .ok grid =>
        match loadtxt 0 pathLines with
        | .error e => .err (.malformedPath e)
        | .ok path => renderOutcome w grid path

/-- The script's `main()`: read `sys.argv[1..4]`, build
`cmd = [str(SAVE_BB8), M, N, robot_radius, obstacle_config]`, run the
solver (`solver` is the child's behaviour, `fs` the artifact files as they
stand after the invocation), warn on `CalledProcessError` and continue,
then load and render the artifacts. -/
def main (argv : List String) (solver : SolverRun) (fs : FS) : Outcome :=
  match argv with
  | _prog :: m :: n :: robotRadius :: obstacleConfig :: _ =>
    let cmd := [SAVE_BB8, m, n, robotRadius, obstacleConfig]
    match solver with
    | .launchFailure => .err (.launchFailure cmd)
    | .completed code out =>
      let w : Option Warning := if code ≠ 0 then some ⟨cmd, code, out⟩ else none
      afterLaunch w fs
  | _ => .err .usage

/-- A warning with its command-line component erased. -/
def Warning.scrub (w : Warning) : Warning :=
  ⟨[], w.returncode, w.output⟩

/-- A pipeline error with its command-line component erased. -/
def PipeError.scrub : PipeError → PipeError
  | .launchFailure _ => .launchFailure []
  | e => e

/-- An outcome with every occurrence of the solver command line erased:
what remains is exactly the data that does not mention the four
command-line arguments. -/
def Outcome.scrub : Outcome → Outcome
  | .ok r => .ok ⟨r.warning.map Warning.scrub, r.grid, r.path, r.overlayVertices, r.savedImage⟩
  | .err e => .err e.scrub

/-! Helper lemmas about the `loadtxt` model. -/

lemma clean_filter (ls : List String) (h : ∀ l ∈ ls, stripComment l = l ∧ l ≠ "") :
    ((ls.map stripComment).filter (fun l => l ≠ "")) = ls := by
  induction ls with
  | nil => rfl
  | cons a as ih =>
    obtain ⟨ha1, ha2⟩ := h a (by simp)
    simp only [List.map_cons, List.filter_cons, ha1]
    rw [if_pos (by simpa using ha2), ih (fun l hl => h l (by simp [hl]))]

lemma parseFields_some (fields : List (List Char))
    (h : ∀ f ∈ fields, (parseNum f).isSome) :
    ∃ vs, parseFields fields = some vs ∧ vs.length = fields.length := by
  induction fields with
  | nil => exact ⟨[], rfl, rfl⟩
  | cons f fields ih =>
    obtain ⟨v, hv⟩ := Option.isSome_iff_exists.mp (h f (by simp))
    obtain ⟨vs, hvs, hlen⟩ := ih (fun g hg => h g (by simp [hg]))
    exact ⟨v :: vs, by simp [parseFields, hv, hvs], by simp [hlen]⟩

lemma parseFields_none (fields : List (List Char)) (f : List Char)
    (hf : f ∈ fields) (h : parseNum f = none) : parseFields fields = none := by
  induction fields with
  | nil => cases hf
  | cons g fields ih =>
    rcases List.mem_cons.mp hf with rfl | hf'
    · simp [parseFields, h]
    · cases hg : parseNum g <;> simp [parseFields, hg, ih hf']

lemma parseLine_ok (n : Nat) (l : String)
    (hn : (splitFields l).length = n)
    (hnum : ∀ f ∈ splitFields l, (parseNum f).isSome) :
    ∃ vs, parseLine n l = .ok vs ∧ vs.length = n := by
  obtain ⟨vs, hvs, hlen⟩ := parseFields_some (splitFields l) hnum
  exact ⟨vs, by simp [parseLine, hn, hvs], by rw [hlen, hn]⟩

lemma parseLine_wrongColumns (n : Nat) (l : String)
    (hn : (splitFields l).length ≠ n) :
    parseLine n l = .error .wrongColumns := by
  simp [parseLine, hn]

lemma parseLine_badToken (n : Nat) (l : String) (f : List Char)
    (hn : (splitFields l).length = n) (hf : f ∈ splitFields l)
    (h : parseNum f = none) :
    parseLine n l = .error .badToken := by
  simp [parseLine, hn, parseFields_none (splitFields l) f hf h]

lemma parseRows_ok (n : Nat) (ls : List String)
    (h : ∀ l ∈ ls, (splitFields l).length = n ∧ ∀ f ∈ splitFields l, (parseNum f).isSome) :
    ∃ rss, parseRows n ls = .ok rss ∧ rss.length = ls.length ∧ ∀ r ∈ rss, r.length = n := by
  induction ls with
  | nil => exact ⟨[], rfl, rfl, by simp⟩
  | cons a as ih =>
    obtain ⟨ha1, ha2⟩ := h a (by simp)
    obtain ⟨vs, hvs, hlen⟩ := parseLine_ok n a ha1 ha2
    obtain ⟨rss, hrss, hrlen, hall⟩ := ih (fun l hl => h l (by simp [hl]))
    refine ⟨vs :: rss, by simp [parseRows, hvs, hrss], by simp [hrlen], ?_⟩
    intro r hr
    rcases List.mem_cons.mp hr with rfl | hr'
    · exact hlen
    · exact hall r hr'

lemma parseRows_error (n : Nat) (ls : List String) (l : String)
    (hl : l ∈ ls) (he : ∃ e, parseLine n l = .error e) :
    ∃ e, parseRows n ls = .error e := by
  induction ls with
  | nil => cases hl
  | cons a as ih =>
    rcases List.mem_cons.mp hl with rfl | hl'
    · obtain ⟨e, he⟩ := he
      exact ⟨e, by simp [parseRows, he]⟩
    · cases ha : parseLine n a with
      | error e => exact ⟨e, by simp [parseRows, ha]⟩
      | ok r =>
        obtain ⟨e, hrec⟩ := ih hl'
        exact ⟨e, by simp [parseRows, ha, hrec]⟩

lemma squeeze_eq_matrix (rs : List (List Rat))
    (h2 : 2 ≤ rs.length) (hc : colCount rs ≠ 1) :
    squeeze rs = .matrix rs := by
  have h0 : ¬ rs.length = 0 := by omega
  have h1 : ¬ rs.length = 1 := by omega
  simp [squeeze, h0, h1, hc]

lemma size_matrix_ne_zero (rs : List (List Rat)) (r : List Rat)
    (hr : r ∈ rs) (hl : r.length ≠ 0) :
    NpArray.size (.matrix rs) ≠ 0 := by
  have : r.length ≤ (rs.map List.length).sum :=
    List.single_le_sum (fun y _ => Nat.zero_le y) r.length (List.mem_map_of_mem List.length hr)
  simp only [NpArray.size]
  omega

/-- Loading a file with `k` header lines and a well-formed data block of at
least 2 rows and at least 2 columns yields exactly the 2-D table of the file. -/
lemma loadtxt_wf (k : Nat) (headers data : List String) (rows cols : Nat)
    (hh : headers.length = k) (hld : data.length = rows)
    (hwf : ∀ l ∈ data, LineWF cols l) (hr : 2 ≤ rows) (hc : 2 ≤ cols) :
    ∃ g, loadtxt k (headers ++ data) = .ok (.matrix g) ∧
      g.length = rows ∧ ∀ r ∈ g, r.length = cols := by
  have hdls : ((((headers ++ data).drop k).map stripComment).filter (fun l => l ≠ "")) = data := by
    rw [List.drop_left' hh]
    exact clean_filter data (fun l hl => ⟨(hwf l hl).1, (hwf l hl).2.1⟩)
  cases data with
  | nil =>
    exfalso
    rw [← hld] at hr
    simp at hr
  | cons l₀ rest =>
    have hn : (splitFields l₀).length = cols := (hwf l₀ (by simp)).2.2.1
    obtain ⟨rss, hrss, hrlen, hall⟩ := parseRows_ok cols (l₀ :: rest)
      (fun l hl => ⟨(hwf l hl).2.2.1, (hwf l hl).2.2.2⟩)
    have hcc : colCount rss ≠ 1 := by
      cases rss with
      | nil => simp at hrlen
      | cons r rs =>
        have := hall r (by simp)
        simp only [colCount, List.headD_cons]
        omega
    refine ⟨rss, ?_, by rw [hrlen, hld], hall⟩
    rw [loadtxt, hdls, loadtxtData, hn, hrss]
    exact congrArg Except.ok (squeeze_eq_matrix rss (by rw [hrlen, hld]; exact hr) hcc)

/-- Loading fails whenever some surviving data line fails to parse against
the first data line's column count. -/
lemma loadtxt_error (k : Nat) (headers data : List String) (l₀ : String) (rest : List String)
    (hh : headers.length = k) (hdata : data = l₀ :: rest)
    (hclean : ∀ l ∈ data, stripComment l = l ∧ l ≠ "")
    (l : String) (hl : l ∈ data)
    (he : ∃ e, parseLine (splitFields l₀).length l = .error e) :
    ∃ e, loadtxt k (headers ++ data) = .error e := by
  have hdls : ((((headers ++ data).drop k).map stripComment).filter (fun l => l ≠ "")) = data := by
    rw [List.drop_left' hh]
    exact clean_filter data hclean
  subst hdata
  obtain ⟨e, hrec⟩ := parseRows_error (splitFields l₀).length (l₀ :: rest) l hl he
  exact ⟨e, by rw [loadtxt, hdls, loadtxtData, hrec]⟩

/-- Loading succeeds on any file whose surviving data lines all share one
column count with numeric cells — the count is never compared with anything
outside the file. -/
lemma loadtxt_ok_of_wf (k : Nat) (headers data : List String) (cols : Nat)
    (hh : headers.length = k) (hwf : ∀ l ∈ data, LineWF cols l) :
    ltOk (loadtxt k (headers ++ data)) = true := by
  have hdls : ((((headers ++ data).drop k).map stripComment).filter (fun l => l ≠ "")) = data := by
    rw [List.drop_left' hh]
    exact clean_filter data (fun l hl => ⟨(hwf l hl).1, (hwf l hl).2.1⟩)
  cases data with
  | nil => rw [loadtxt, hdls]; rfl
  | cons l₀ rest =>
    have hn : (splitFields l₀).length = cols := (hwf l₀ (by simp)).2.2.1
    obtain ⟨rss, hrss, -, -⟩ := parseRows_ok cols (l₀ :: rest)
      (fun l hl => ⟨(hwf l hl).2.2.1, (hwf l hl).2.2.2⟩)
    rw [loadtxt, hdls, loadtxtData, hn, hrss]
    rfl

/-! Helper lemmas about the pipeline. -/

lemma main_eq_render (prog m n robotRadius obstacleConfig : String) (rest : List String)
    (code : Int) (out : String) (gl pl : List String) (grid path : NpArray)
    (hg : loadtxt 3 gl = .ok grid) (hp : loadtxt 0 pl = .ok path) :
    main (prog :: m :: n :: robotRadius :: obstacleConfig :: rest)
        (.completed code out) ⟨some gl, some pl⟩
      = renderOutcome
          (if code ≠ 0 then some ⟨[SAVE_BB8, m, n, robotRadius, obstacleConfig], code, out⟩
           else none)
          grid path := by
  simp [main, afterLaunch, hg, hp]

lemma renderOutcome_overlay (w : Option Warning) (g rs : List (List Rat))
    (hsz : NpArray.size (.matrix rs) ≠ 0) :
    renderOutcome w (.matrix g) (.matrix rs)
      = .ok ⟨w, .matrix g, .matrix rs, some rs.length, "solution.png"⟩ := by
  simp [renderOutcome, hsz]

lemma renderOutcome_noPath (w : Option Warning) (g : List (List Rat)) (path : NpArray)
    (hsz : path.size = 0) :
    renderOutcome w (.matrix g) path = .ok ⟨w, .matrix g, path, none, "solution.png"⟩ := by
  simp [renderOutcome, hsz]

lemma renderOutcome_scrub (w w' : Option Warning) (grid path : NpArray)
    (h : w.map Warning.scrub = w'.map Warning.scrub) :
    (renderOutcome w grid path).scrub = (renderOutcome w' grid path).scrub := by
  unfold renderOutcome
  cases grid with
  | scalar x => rfl
  | vector xs => rfl
  | matrix g =>
    by_cases hp : path.size ≠ 0
    · simp only [if_pos hp]
      cases path <;> simp [Outcome.scrub, h]
    · simp only [if_neg hp]
      simp [Outcome.scrub, h]

lemma afterLaunch_scrub (w w' : Option Warning) (fs : FS)
    (h : w.map Warning.scrub = w'.map Warning.scrub) :
    (afterLaunch w fs).scrub = (afterLaunch w' fs).scrub := by
  obtain ⟨cs, sp⟩ := fs
  cases cs with
  | none => rfl
  | some gl =>
    cases sp with
    | none => rfl
    | some pl =>
      unfold afterLaunch
      dsimp only
      cases loadtxt 3 gl with
      | error e => rfl
      | ok grid =>
        cases loadtxt 0 pl with
        | error e => rfl
        | ok path => exact renderOutcome_scrub w w' grid path h

/-! The claims. -/

/-- Claim C1, counterexample: the solver exits non-zero, the grid file is
well-formed, and the path file is well-formed per the artifact contract (its
single line has exactly 2 numeric fields), yet the pipeline does not complete
and no image is produced: the squeezed 1-D path array has non-zero size, so
`solution_path[:, 0]` raises an `IndexError`. -/
theorem c1_counterexample :
    (∀ l ∈ ["1 1"], LineWF 2 l) ∧
    main ["run-save-bb8.py", "2", "2", "1", "0"] (.completed 1 "solver failed")
        ⟨some ["nx 2", "ny 2", "radius 1", "0 1", "2 3"], some ["1 1"]⟩
      = .err .pathIndex := by
  decide

/-- Claim C1 (amended): if the solver exits non-zero but the grid file holds
3 headers plus a well-formed data block of at least 2 rows and 2 columns, and
the path file is empty or holds at least 2 well-formed coordinate lines, then
the pipeline completes, reports the solver failure only as a warning carrying
the command, exit code and captured output, and produces the image artifact. -/
theorem c1_amended (prog m n robotRadius obstacleConfig : String) (rest : List String)
    (code : Int) (out : String) (headers gdata pdata : List String) (rows cols : Nat)
    (hcode : code ≠ 0)
    (hh : headers.length = 3) (hgl : gdata.length = rows)
    (hgwf : ∀ l ∈ gdata, LineWF cols l) (hr : 2 ≤ rows) (hc : 2 ≤ cols)
    (hpath : pdata = [] ∨ (2 ≤ pdata.length ∧ ∀ l ∈ pdata, LineWF 2 l)) :
    ∃ res, main (prog :: m :: n :: robotRadius :: obstacleConfig :: rest)
          (.completed code out) ⟨some (headers ++ gdata), some pdata⟩
        = .ok res ∧
      res.warning = some ⟨[SAVE_BB8, m, n, robotRadius, obstacleConfig], code, out⟩ ∧
      res.savedImage = "solution.png" := by
  obtain ⟨g, hg, hglen, hgall⟩ := loadtxt_wf 3 headers gdata rows cols hh hgl hgwf hr hc
  rcases hpath with rfl | ⟨hp2, hpwf⟩
  · refine ⟨⟨some ⟨[SAVE_BB8, m, n, robotRadius, obstacleConfig], code, out⟩,
      .matrix g, .vector [], none, "solution.png"⟩, ?_, rfl, rfl⟩
    rw [main_eq_render prog m n robotRadius obstacleConfig rest code out _ _ _ _ hg
        (rfl : loadtxt 0 [] = .ok (.vector [])),
      if_pos hcode, renderOutcome_noPath _ _ _ (rfl : NpArray.size (.vector []) = 0)]
  · obtain ⟨prs, hp, hplen, hpall⟩ :=
      loadtxt_wf 0 [] pdata pdata.length 2 rfl rfl hpwf hp2 (by omega)
    have hp0 : loadtxt 0 pdata = .ok (.matrix prs) := by simpa using hp
    obtain ⟨q, qs, rfl⟩ : ∃ q qs, prs = q :: qs := by
      cases prs with
      | nil => exfalso; rw [← hplen] at hp2; simp at hp2
      | cons q qs => exact ⟨q, qs, rfl⟩
    have hsz : NpArray.size (.matrix (q :: qs)) ≠ 0 :=
      size_matrix_ne_zero _ q (by simp) (by rw [hpall q (by simp)]; omega)
    refine ⟨⟨some ⟨[SAVE_BB8, m, n, robotRadius, obstacleConfig], code, out⟩,
      .matrix g, .matrix (q :: qs), some (q :: qs).length, "solution.png"⟩, ?_, rfl, rfl⟩
    rw [main_eq_render prog m n robotRadius obstacleConfig rest code out _ _ _ _ hg hp0,
      if_pos hcode, renderOutcome_overlay _ _ _ hsz]

/-- Claim C1, witness for the amended theorem at a concrete run. -/
theorem c1_witness :
    ∃ res, main ["run-save-bb8.py", "3", "2", "1", "0"] (.completed 2 "boom")
          ⟨some (["a", "b", "c"] ++ ["0 1", "2 3", "4 5"]), some ["1 1", "2 2"]⟩
        = .ok res ∧
      res.warning = some ⟨[SAVE_BB8, "3", "2", "1", "0"], 2, "boom"⟩ ∧
      res.savedImage = "solution.png" :=
  c1_amended "run-save-bb8.py" "3" "2" "1" "0" [] 2 "boom" ["a", "b", "c"]
    ["0 1", "2 3", "4 5"] ["1 1", "2 2"] 3 2 (by decide) (by decide) (by decide)
    (by decide) (by decide) (by decide) (Or.inr ⟨by decide, by decide⟩)

/-- Claim C2, counterexample: with a non-numeric `rows` ("abc"), a
non-positive `cols` ("0") and a negative `robot_radius` ("-1"), no
validation error pre-empts the launch: the run's outcome is the uncaught
launch failure of the attempted solver start, whose command line carries the
four bad values verbatim. -/
theorem c2_counterexample :
    main ["run-save-bb8.py", "abc", "0", "-1", "cfg"] .launchFailure ⟨none, none⟩
      = .err (.launchFailure [SAVE_BB8, "abc", "0", "-1", "cfg"]) := by
  decide

/-- Claim C2 (amended): no parameter validation exists. Whenever four
positional arguments are present, whatever their values, the solver launch is
attempted with exactly those strings appended verbatim to the executable
path; no `InvalidParameterError` is ever raised before the launch. -/
theorem c2_amended (prog m n robotRadius obstacleConfig : String) (rest : List String)
    (fs : FS) :
    main (prog :: m :: n :: robotRadius :: obstacleConfig :: rest) .launchFailure fs
      = .err (.launchFailure [SAVE_BB8, m, n, robotRadius, obstacleConfig]) := rfl

/-- Claim C3, counterexample: the run declares `rows=5, cols=5`, but the grid
file holds only 2 data lines of 3 fields each; no error is raised — the
pipeline completes with a 2 × 3 grid, because `np.loadtxt` never compares the
file against the declared dimensions. -/
theorem c3_counterexample :
    main ["run-save-bb8.py", "5", "5", "1", "0"] (.completed 0 "")
        ⟨some ["h1", "h2", "h3", "1 2 3", "4 5 6"], some []⟩
      = .ok ⟨none, .matrix [[1, 2, 3], [4, 5, 6]], .vector [], none, "solution.png"⟩ := by
  decide

/-- Claim C3 (amended): grid parsing skips exactly 3 header lines, and for
all `rows, cols ≥ 2` a grid file of 3 headers plus `rows` data lines of
`cols` numeric fields parses to a `rows × cols` array; a non-numeric cell
raises an error. Deviations are detected only relative to the file itself
(column counts are compared against the first data line, never against the
declared `rows`/`cols`), and one-row or one-column results are squeezed. -/
theorem c3_amended :
    (∀ headers gdata rows cols, headers.length = 3 → gdata.length = rows →
        (∀ l ∈ gdata, LineWF cols l) → 2 ≤ rows → 2 ≤ cols →
        ∃ g, loadtxt 3 (headers ++ gdata) = .ok (.matrix g) ∧
          g.length = rows ∧ ∀ r ∈ g, r.length = cols)
    ∧ (∀ headers gdata cols l f, headers.length = 3 →
        (∀ l' ∈ gdata, stripComment l' = l' ∧ l' ≠ "" ∧ (splitFields l').length = cols) →
        l ∈ gdata → f ∈ splitFields l → parseNum f = none →
        ∃ e, loadtxt 3 (headers ++ gdata) = .error e) := by
  constructor
  · exact fun headers gdata rows cols hh hgl hwf hr hc =>
      loadtxt_wf 3 headers gdata rows cols hh hgl hwf hr hc
  · intro headers gdata cols l f hh hclean hl hf hnone
    cases gdata with
    | nil => cases hl
    | cons l₀ ls =>
      refine loadtxt_error 3 headers (l₀ :: ls) l₀ ls hh rfl
        (fun l' hl' => ⟨(hclean l' hl').1, (hclean l' hl').2.1⟩) l hl ?_
      refine ⟨.badToken, parseLine_badToken _ l f ?_ hf hnone⟩
      rw [(hclean l hl).2.2, (hclean l₀ (by simp)).2.2]

/-- Claim C3, witness for the amended theorem at concrete grid files. -/
theorem c3_witness :
    (∃ g, loadtxt 3 (["a", "b", "c"] ++ ["1 2", "3 4"]) = .ok (.matrix g) ∧
        g.length = 2 ∧ ∀ r ∈ g, r.length = 2) ∧
    (∃ e, loadtxt 3 (["a", "b", "c"] ++ ["1 x", "3 4"]) = .error e) :=
  ⟨c3_amended.1 ["a", "b", "c"] ["1 2", "3 4"] 2 2 (by decide) (by decide) (by decide)
      (by decide) (by decide),
   c3_amended.2 ["a", "b", "c"] ["1 x", "3 4"] 2 "1 x" ['x'] (by decide) (by decide)
      (by decide) (by decide) (by decide)⟩

/-- Claim C4: when the grid file is absent after a completed invocation, the
pipeline fails with the missing-artifact error carrying the grid file path,
whatever the path file holds — neither parsing nor rendering is reached. -/
theorem c4_missing_grid (prog m n robotRadius obstacleConfig : String) (rest : List String)
    (code : Int) (out : String) (sp : Option (List String)) :
    main (prog :: m :: n :: robotRadius :: obstacleConfig :: rest) (.completed code out)
        ⟨none, sp⟩
      = .err (.missingArtifact CONFIG_SPACE_FILE) := rfl

/-- Claim C5: an empty path file is valid — it parses to the empty 1-D array,
and the pipeline completes drawing the heatmap with no path overlay and
saving the image; a missing path file instead fails with the missing-artifact
error carrying the path file's path. -/
theorem c5_empty_vs_missing_path (prog m n robotRadius obstacleConfig : String)
    (rest : List String) (out : String) (headers gdata : List String) (rows cols : Nat)
    (hh : headers.length = 3) (hgl : gdata.length = rows)
    (hgwf : ∀ l ∈ gdata, LineWF cols l) (hr : 2 ≤ rows) (hc : 2 ≤ cols) :
    (∃ res, main (prog :: m :: n :: robotRadius :: obstacleConfig :: rest)
          (.completed 0 out) ⟨some (headers ++ gdata), some []⟩
        = .ok res ∧ res.path = .vector [] ∧ res.overlayVertices = none ∧
        res.savedImage = "solution.png") ∧
    main (prog :: m :: n :: robotRadius :: obstacleConfig :: rest)
        (.completed 0 out) ⟨some (headers ++ gdata), none⟩
      = .err (.missingArtifact SOLUTION_PATH_FILE) := by
  obtain ⟨g, hg, -, -⟩ := loadtxt_wf 3 headers gdata rows cols hh hgl hgwf hr hc
  refine ⟨⟨⟨none, .matrix g, .vector [], none, "solution.png"⟩, ?_, rfl, rfl, rfl⟩, rfl⟩
  rw [main_eq_render prog m n robotRadius obstacleConfig rest 0 out _ _ _ _ hg
      (rfl : loadtxt 0 [] = .ok (.vector [])),
    if_neg (by simp), renderOutcome_noPath _ _ _ (rfl : NpArray.size (.vector []) = 0)]

/-- Claim C5, witness at a concrete run. -/
theorem c5_witness :
    (∃ res, main ["run-save-bb8.py", "2", "2", "0.5", "1"]
          (.completed 0 "ok") ⟨some (["x", "y", "z"] ++ ["1 0", "0 1"]), some []⟩
        = .ok res ∧ res.path = .vector [] ∧ res.overlayVertices = none ∧
        res.savedImage = "solution.png") ∧
    main ["run-save-bb8.py", "2", "2", "0.5", "1"]
        (.completed 0 "ok") ⟨some (["x", "y", "z"] ++ ["1 0", "0 1"]), none⟩
      = .err (.missingArtifact SOLUTION_PATH_FILE) :=
  c5_empty_vs_missing_path "run-save-bb8.py" "2" "2" "0.5" "1" [] "ok" ["x", "y", "z"]
    ["1 0", "0 1"] 2 2 (by decide) (by decide) (by decide) (by decide) (by decide)

/-- Claim C6, counterexample: a non-empty path file both of whose lines have
3 space-separated fields — not 2 — loads without any error, as a 2 × 3
array: `np.loadtxt` only compares each line's field count with the first
line's, never with the coordinate arity 2. -/
theorem c6_counterexample :
    loadtxt 0 ["1 2 3", "4 5 6"] = .ok (.matrix [[1, 2, 3], [4, 5, 6]]) := by
  decide

/-- Claim C6 (amended): loading a non-empty path file raises an error when
some line's field count differs from the first line's (and, per C3, when a
cell is non-numeric); but a file whose lines all share one field count —
even a count other than 2 — with numeric cells loads without error. -/
theorem c6_amended :
    (∀ l₀ : String, ∀ ls : List String, ∀ l : String,
        (∀ l' ∈ l₀ :: ls, stripComment l' = l' ∧ l' ≠ "") →
        l ∈ ls → (splitFields l).length ≠ (splitFields l₀).length →
        ∃ e, loadtxt 0 (l₀ :: ls) = .error e)
    ∧ (∀ l₀ : String, ∀ ls : List String, ∀ cols : Nat,
        (∀ l ∈ l₀ :: ls, LineWF cols l) →
        ltOk (loadtxt 0 (l₀ :: ls)) = true) := by
  constructor
  · intro l₀ ls l hclean hl hne
    have he : ∃ e, parseLine (splitFields l₀).length l = .error e :=
      ⟨.wrongColumns, parseLine_wrongColumns _ l hne⟩
    simpa using loadtxt_error 0 [] (l₀ :: ls) l₀ ls rfl rfl hclean l
      (List.mem_cons_of_mem l₀ hl) he
  · intro l₀ ls cols hwf
    simpa using loadtxt_ok_of_wf 0 [] (l₀ :: ls) cols rfl hwf

/-- Claim C6, witness for the amended theorem at concrete path files. -/
theorem c6_witness :
    (∃ e, loadtxt 0 ["1 1", "2 2 2"] = .error e) ∧
    ltOk (loadtxt 0 ["7 8 9", "4 5 6", "1 2 3"]) = true :=
  ⟨c6_amended.1 "1 1" ["2 2 2"] "2 2 2" (by decide) (by decide) (by decide),
   c6_amended.2 "7 8 9" ["4 5 6", "1 2 3"] 3 (by decide)⟩

/-- Claim C7, counterexample: a well-formed non-empty path file with exactly
one line (one coordinate pair) does not render a 1-vertex overlay: numpy
squeezes the 1 × 2 table to a 1-D array of non-zero size, and
`solution_path[:, 0]` raises an `IndexError`, aborting the run. -/
theorem c7_counterexample :
    (∀ l ∈ ["3 4"], LineWF 2 l) ∧
    main ["run-save-bb8.py", "2", "3", "1", "1"] (.completed 0 "")
        ⟨some ["r1", "r2", "r3", "5 5 5", "6 6 6"], some ["3 4"]⟩
      = .err .pathIndex := by
  decide

/-- Claim C7 (amended): for every well-formed path file with at least 2
lines of exactly 2 numeric fields (and a well-formed grid), the renderer
overlays a polyline whose vertex count equals the number of input lines;
the empty path draws no overlay (C5), and a single-line path file raises an
indexing error instead of a 1-vertex overlay. -/
theorem c7_amended (prog m n robotRadius obstacleConfig : String) (rest : List String)
    (out : String) (headers gdata pdata : List String) (rows cols : Nat)
    (hh : headers.length = 3) (hgl : gdata.length = rows)
    (hgwf : ∀ l ∈ gdata, LineWF cols l) (hr : 2 ≤ rows) (hc : 2 ≤ cols)
    (hp2 : 2 ≤ pdata.length) (hpwf : ∀ l ∈ pdata, LineWF 2 l) :
    ∃ res, main (prog :: m :: n :: robotRadius :: obstacleConfig :: rest)
          (.completed 0 out) ⟨some (headers ++ gdata), some pdata⟩
        = .ok res ∧ res.overlayVertices = some pdata.length := by
  obtain ⟨g, hg, -, -⟩ := loadtxt_wf 3 headers gdata rows cols hh hgl hgwf hr hc
  obtain ⟨prs, hp, hplen, hpall⟩ :=
    loadtxt_wf 0 [] pdata pdata.length 2 rfl rfl hpwf hp2 (by omega)
  have hp0 : loadtxt 0 pdata = .ok (.matrix prs) := by simpa using hp
  obtain ⟨q, qs, rfl⟩ : ∃ q qs, prs = q :: qs := by
    cases prs with
    | nil => exfalso; rw [← hplen] at hp2; simp at hp2
    | cons q qs => exact ⟨q, qs, rfl⟩
  have hsz : NpArray.size (.matrix (q :: qs)) ≠ 0 :=
    size_matrix_ne_zero _ q (by simp) (by rw [hpall q (by simp)]; omega)
  refine ⟨⟨none, .matrix g, .matrix (q :: qs), some (q :: qs).length, "solution.png"⟩,
    ?_, by rw [hplen]⟩
  rw [main_eq_render prog m n robotRadius obstacleConfig rest 0 out _ _ _ _ hg hp0,
    if_neg (by simp), renderOutcome_overlay _ _ _ hsz]

/-- Claim C7, witness for the amended theorem at a concrete run. -/
theorem c7_witness :
    ∃ res, main ["run-save-bb8.py", "2", "2", "1", "0"] (.completed 0 "")
          ⟨some (["ha", "hb", "hc"] ++ ["0 1", "1 0"]), some ["1 1", "2 2", "3 3", "4 4"]⟩
        = .ok res ∧ res.overlayVertices = some 4 :=
  c7_amended "run-save-bb8.py" "2" "2" "1" "0" [] "" ["ha", "hb", "hc"] ["0 1", "1 0"]
    ["1 1", "2 2", "3 3", "4 4"] 2 2 (by decide) (by decide) (by decide) (by decide)
    (by decide) (by decide) (by decide)

/-- Claim C8: the round-trip scenario — `rows=5, cols=5`, a grid file of 3
headers plus 5 lines of 5 values, a path file with lines "1 1", "2 2",
"3 3" — completes, saves exactly the one image `solution.png`, and the
parsed path equals `[(1,1), (2,2), (3,3)]`. -/
theorem c8_roundtrip :
    main ["run-save-bb8.py", "5", "5", "2", "0"] (.completed 0 "")
        ⟨some ["header 1", "header 2", "header 3",
               "0 1 2 3 4", "1 2 3 4 5", "2 3 4 5 6", "3 4 5 6 7", "4 5 6 7 8"],
          some ["1 1", "2 2", "3 3"]⟩
      = .ok ⟨none,
          .matrix [[0, 1, 2, 3, 4], [1, 2, 3, 4, 5], [2, 3, 4, 5, 6],
                   [3, 4, 5, 6, 7], [4, 5, 6, 7, 8]],
          .matrix [[1, 1], [2, 2], [3, 3]], some 3, "solution.png"⟩ := by
  decide

/-- Claim C9: everything after solver invocation depends only on the two
artifact files — two runs with the same files and the same solver behaviour
but different `rows`, `cols`, `robot_radius`, `obstacle_config` arguments
agree on everything except the echoed command line: same parsed grid, same
parsed path, same overlay decision, same errors. -/
theorem c9_noninterference (prog m n robotRadius obstacleConfig : String)
    (rest : List String) (prog' m' n' robotRadius' obstacleConfig' : String)
    (rest' : List String) (solver : SolverRun) (fs : FS) :
    (main (prog :: m :: n :: robotRadius :: obstacleConfig :: rest) solver fs).scrub
      = (main (prog' :: m' :: n' :: robotRadius' :: obstacleConfig' :: rest') solver fs).scrub := by
  cases solver with
  | launchFailure => rfl
  | completed code out =>
    unfold main
    dsimp only
    apply afterLaunch_scrub
    by_cases hcode : code = 0 <;> simp [hcode, Warning.scrub]

/-- Claim C10: only a solver that starts and exits non-zero is recovered as
a warning. A launch failure is not caught: the pipeline aborts with it for
every state of the artifact files, before any artifact-presence check; a
non-zero exit instead proceeds to the artifact-presence check (which is what
fails when the files are absent). -/
theorem c10_launch_vs_exit :
    (∀ (prog m n robotRadius obstacleConfig : String) (rest : List String) (fs : FS),
        main (prog :: m :: n :: robotRadius :: obstacleConfig :: rest) .launchFailure fs
          = .err (.launchFailure [SAVE_BB8, m, n, robotRadius, obstacleConfig]))
    ∧ (∀ (prog m n robotRadius obstacleConfig : String) (rest : List String)
          (code : Int) (out : String), code ≠ 0 →
        main (prog :: m :: n :: robotRadius :: obstacleConfig :: rest)
            (.completed code out) ⟨none, none⟩
          = .err (.missingArtifact CONFIG_SPACE_FILE)) :=
  ⟨fun _ _ _ _ _ _ _ => rfl, fun _ _ _ _ _ _ _ _ _ => rfl⟩

/-- Claim C10, witness at a concrete run. -/
theorem c10_witness :
    main ["run-save-bb8.py", "4", "4", "1", "2"] .launchFailure ⟨none, none⟩
        = .err (.launchFailure [SAVE_BB8, "4", "4", "1", "2"]) ∧
    main ["run-save-bb8.py", "4", "4", "1", "2"] (.completed 3 "crash") ⟨none, none⟩
        = .err (.missingArtifact CONFIG_SPACE_FILE) :=
  ⟨c10_launch_vs_exit.1 "run-save-bb8.py" "4" "4" "1" "2" [] ⟨none, none⟩,
   c10_launch_vs_exit.2 "run-save-bb8.py" "4" "4" "1" "2" [] 3 "crash" (by decide)⟩

end SaveBB8
